import Mathlib

/-!
Verification of the quantitative analysis core of the Stock-analyser backend
(`src/backend/main.py`): the trend classifier, the support-level merge, the
swing-low detector, the intrinsic-value estimator (method selection, discount
rate table, growth schedule) and the composite scorer.

The Python code is shallowly embedded over `ℚ`.  Machine floats are modelled
as exact rationals; the two places where the Python code computes a fractional
power of a float (the revenue / net-income CAGR expressions
`(a / b) ** (1 / n) - 1`) are abstracted as oracle inputs carrying the value
that the float computation produced, since the claims under study never depend
on the numeric value of those powers.  pandas series become `List ℚ`
(newest-first where the source keeps them newest-first), DataFrame row lookup
becomes an association list keyed by the row label, and Python's substring
test `pat in s` becomes `containsSub`.
-/

namespace StockAnalyser

/-- `matchesFrom pat l` holds when `pat` occurs at the head of `l`. -/
def matchesFrom : List Char → List Char → Bool
  | [], _ => true
  | _ :: _, [] => false
  | a :: as, b :: bs => a == b && matchesFrom as bs

/-- `occursIn pat l` holds when `pat` occurs contiguously anywhere in `l`. -/
def occursIn (pat : List Char) : List Char → Bool
  | [] => pat.isEmpty
  | c :: rest => matchesFrom pat (c :: rest) || occursIn pat rest

/-- Python's substring test `pat in s`. -/
def containsSub (s pat : String) : Bool := occursIn pat.toList s.toList

/-! ## Trend classifier (`check_trend`, main.py lines 872-942) -/

/-- Numerator of the ordinary-least-squares slope computed by
`np.polyfit(x, y, 1)` with `x = 0, 1, ..., n-1` and `y` the chronological
series.  The slope equals this value divided by `n * Σ x² - (Σ x)²`, which is
positive whenever `n ≥ 2`, so the slope and `slopeNum` have the same sign. -/
def slopeNum (l : List ℚ) : ℚ :=
  (l.length : ℚ) * (∑ i ∈ Finset.range l.length, ((i : ℚ) * l.getD i 0)) -
    (∑ i ∈ Finset.range l.length, (i : ℚ)) * (∑ i ∈ Finset.range l.length, l.getD i 0)

/-- The year-over-year consistency loop of `check_trend` (main.py lines
903-912): walking the chronological series, fail as soon as a step drops
below `previous * (1 - tolerance)`. -/
def consistentIncrease (tolerance : ℚ) : List ℚ → Bool
  | a :: b :: rest => (!decide (b < a * (1 - tolerance))) && consistentIncrease tolerance (b :: rest)
  | _ => true

/-- `check_trend` (main.py lines 872-942).  The argument is the cleaned
(NaN-dropped) numeric series in chronological order; the Python code sorts
the pandas series newest-first by index, so its `newest` (`iloc[0]`) is the
last chronological value and its `oldest` (`iloc[-1]`) the first.  The
`np.polyfit` slope test is `slopeNum`; with at least two points `polyfit`
never raises, so the `except` fallbacks are dead. -/
def check_trend (series : List ℚ) (trend_type : String) (tolerance : ℚ) : Bool :=
  if series.length < 2 then false
  else
    let newest := series.getD (series.length - 1) 0
    let oldest := series.getD 0 0
    if trend_type = "increasing" then
      if oldest < newest then true
      else if 0 < slopeNum series then true
      else consistentIncrease tolerance series
    else if trend_type = "stable_increasing" then
      if oldest * (1 - tolerance) ≤ newest then true
      else decide (0 ≤ slopeNum series)
    else if trend_type = "reducing_stable" then
      if newest ≤ oldest * (1 + tolerance) then true
      else decide (slopeNum series ≤ 0)
    else false

/-! ## Swing-low detector (`get_swing_lows`, main.py lines 90-100) -/

/-- `get_swing_lows` (main.py lines 90-100): scan indices
`window ≤ i < len - window` of the `Low` column; report `low[i]` when no bar
within `window` positions on either side has a strictly smaller low. -/
def get_swing_lows (low : List ℚ) (window : ℕ) : List ℚ :=
  (List.range' window (low.length - 2 * window)).filterMap fun i =>
    if (List.range' 1 window).all fun j =>
        (!decide (low.getD (i - j) 0 < low.getD i 0)) &&
          (!decide (low.getD (i + j) 0 < low.getD i 0))
    then some (low.getD i 0) else none

/-! ## Support-level merge (`get_validated_support_levels`, main.py lines 147-174) -/

/-- A support candidate as assembled in `get_validated_support_levels`
(main.py lines 81-86 and 139-145). -/
structure SupportCandidate where
  price : ℚ
  source : String
  reason : String
  score : ℚ
deriving DecidableEq

/-- The deduplication walk of `get_validated_support_levels` (main.py lines
157-172): `cur` is the running `current_level`; the next candidate joins the
current group when its price is within 1.5% of `cur`'s (and replaces `cur` as
the group representative when its score is strictly higher); otherwise the
representative is emitted and a new group starts.  The final representative
is appended after the loop. -/
def mergeRun (cur : SupportCandidate) : List SupportCandidate → List SupportCandidate
  | [] => [cur]
  | n :: rest =>
    if |cur.price - n.price| / cur.price ≤ 15/1000 then
      mergeRun (if n.score > cur.score then n else cur) rest
    else
      cur :: mergeRun n rest

/-- The final-selection stage of `get_validated_support_levels` (main.py
lines 147-174): sort the candidates by price descending (Python's stable
`sort(key=..., reverse=True)`), merge groups within 1.5%, and return at most
the first five merged levels.  The data fetching and candidate generation
that precede this stage are I/O wrappers outside this function's merge
logic. -/
def get_validated_support_levels_merge (cands : List SupportCandidate) :
    List SupportCandidate :=
  (match cands.mergeSort (fun a b => decide (b.price ≤ a.price)) with
   | [] => []
   | c :: rest => mergeRun c rest).take 5

/-! ## Discount-rate lookup (`get_discount_rate`, main.py lines 241-288) -/

/-- The non-China (US / default) bucket table of `get_discount_rate`
(main.py lines 262-288). -/
def usTable (b : ℚ) : ℚ :=
  if b < 8/10 then 54/1000
  else if b ≥ 16/10 then 78/1000
  else if b < 85/100 then 54/1000
  else if b < 95/100 then 57/1000
  else if b < 105/100 then 60/1000
  else if b < 115/100 then 63/1000
  else if b < 125/100 then 66/1000
  else if b < 135/100 then 69/1000
  else if b < 145/100 then 72/1000
  else if b < 155/100 then 75/1000
  else 78/1000

/-- The China bucket table of `get_discount_rate` (main.py lines 245-260). -/
def chinaTable (b : ℚ) : ℚ :=
  if b < 8/10 then 85/1000
  else if b ≥ 16/10 then 145/1000
  else if b < 85/100 then 85/1000
  else if b < 95/100 then 93/1000
  else if b < 105/100 then 100/1000
  else if b < 115/100 then 108/1000
  else if b < 125/100 then 115/1000
  else if b < 135/100 then 122/1000
  else if b < 145/100 then 130/1000
  else 137/1000

/-- `get_discount_rate` (main.py lines 241-288).  Python's falsy test
`beta = float(beta) if beta else 1.0` coerces a zero beta to the default 1.0
(`None` betas are also coerced to 1.0, both here and by the caller). -/
def get_discount_rate (beta : ℚ) (country : String) : ℚ :=
  let b := if beta = 0 then 1 else beta
  if containsSub country "China" then chinaTable b else usTable b

/-! ## Intrinsic-value estimator (`calculate_intrinsic_value`, main.py lines 180-459) -/

/-- One growth-estimate record as consumed by `calculate_intrinsic_value`
(main.py lines 296-304): the period label and the parsed numeric value of
the `stockTrend` percent string; `none` models the case where Python's
`float()` of the cleaned string raises, making the inner `except: pass`
continue the scan. -/
structure GrowthEst where
  period : String
  stockTrend : Option ℚ
deriving DecidableEq

/-- `is_consistent` (main.py lines 195-202): at least 3 points, and all but
at most one newest-first step satisfies `newer ≥ older * 0.9`. -/
def is_consistent (series : List ℚ) : Bool :=
  if series.length < 3 then false
  else
    decide (series.length - 2 ≤ (List.range (series.length - 1)).countP
      (fun i => decide (series.getD (i + 1) 0 * (9/10) ≤ series.getD i 0)))

/-- The inputs of `calculate_intrinsic_value` (main.py line 180).  pandas
series are newest-first lists of rationals; the balance-sheet and cash-flow
DataFrames are association lists from row label to the row's newest value
(`.loc[key].iloc[0]`, the only access this function performs); the used
`info` fields are inlined, with Python's `dict.get` defaults applied
(`currentPrice` 0, `sharesOutstanding` 1, `country` "United States").  The
two float fractional powers the code computes —
`(revenue[0]/revenue[-1]) ** (1/len)` at line 211 and
`(|net_income[-1]| ... ) ** (1/len)` at line 312 — are not rational-valued;
their float results enter as the oracle fields `revPow` and `niPow`, on
which the claims under study never depend. -/
structure IntrinsicInput where
  currentPrice : ℚ
  sharesOutstanding : ℚ
  sector : String
  industry : String
  country : String
  bookValue : Option ℚ
  priceToBook : Option ℚ
  beta : Option ℚ
  revenue_series : List ℚ
  net_income_series : List ℚ
  op_cash_flow_series : List ℚ
  growth_estimates : List GrowthEst
  balance_sheet : List (String × ℚ)
  cashflow : List (String × ℚ)
  revPow : ℚ
  niPow : ℚ

/-- The result dictionary of `calculate_intrinsic_value`.  The two error
returns (main.py lines 185 and 459) carry no `currentPrice` key, hence the
`Option`; the `assumptions` map of formatted display strings is not
modelled. -/
structure ValuationResult where
  method : String
  intrinsicValue : ℚ
  currentPrice : Option ℚ
  differencePercent : ℚ
  status : String

/-- The zero-valued Error dictionary (main.py lines 185 and 459); the guard
return uses method "N/A", the exception handler "Error". -/
def errorResult (method : String) : ValuationResult :=
  ⟨method, 0, none, 0, "Error"⟩

/-- The revenue CAGR of `calculate_intrinsic_value` (main.py lines 209-211):
`(revenue[0]/revenue[-1]) ** (1/len) - 1` (float power supplied by the
oracle `revPow`) when the series has at least 3 points, else 0. -/
def rev_cagr (inp : IntrinsicInput) : ℚ :=
  if 3 ≤ inp.revenue_series.length then inp.revPow - 1 else 0

/-- The method-selection logic of `calculate_intrinsic_value` (main.py lines
187-237), as a function of sector, industry, the three newest-first series
and the revenue CAGR computed at lines 209-211. -/
def select_method (sector industry : String)
    (revenue net_income op_cash_flow : List ℚ) (cagr : ℚ) : String :=
  let is_financial := containsSub sector "Financial" || containsSub industry "Bank" ||
    containsSub industry "Insurance"
  let current_ni := net_income.getD 0 0
  let current_ocf := op_cash_flow.getD 0 0
  let is_speculative := decide (cagr > 15/100) &&
    (decide (current_ni < 0) || decide (current_ocf < 0)) && !is_financial
  if is_financial then "Mean Price-to-Book (PB)"
  else if is_speculative then "Price to Sales Growth (PSG)"
  else if is_consistent revenue && is_consistent net_income &&
      is_consistent op_cash_flow then
    if current_ocf > 3/2 * current_ni then "Discounted Free Cash Flow (DFCF)"
    else "Discounted Operating Cash Flow (DOCF)"
  else if is_consistent revenue && is_consistent net_income then
    "Discounted Net Income (DNI)"
  else if current_ocf > 0 then "Discounted Operating Cash Flow (DOCF)"
  else "Discounted Net Income (DNI)"

/-- The scan of `growth_estimates` for a "Next 5 Years" entry (main.py lines
296-304): the first such entry whose percent string parses sets the rate to
`float(...)/100` and breaks; an entry whose string does not parse is skipped
by the inner `except: pass` and the scan continues. -/
def growthFromEstimates : List GrowthEst → Option ℚ
  | [] => none
  | e :: rest =>
    if containsSub e.period "Next 5 Years" then
      match e.stockTrend with
      | some v => some (v / 100)
      | none => growthFromEstimates rest
    else growthFromEstimates rest

/-- The years 1-5 growth rate of `calculate_intrinsic_value` (main.py lines
293-316): the parsed "Next 5 Years" estimate when the estimates list is
nonempty, else the historical net-income CAGR (oracle `niPow`, used when the
series has more than 3 points and a nonzero oldest value), defaulting to 5%,
then clamped to [-10%, 30%] by `min(max(g, -0.10), 0.30)`. -/
def growth_rate_1_5 (inp : IntrinsicInput) : ℚ :=
  let g :=
    if inp.growth_estimates ≠ [] then
      (growthFromEstimates inp.growth_estimates).getD (5/100)
    else if inp.net_income_series ≠ [] ∧ 3 < inp.net_income_series.length ∧
        0 < |inp.net_income_series.getLastD 0| then
      inp.niPow - 1
    else 5/100
  min (max g (-(10/100))) (30/100)

/-- The years 6-10 growth rate (main.py line 319). -/
def growth_rate_6_10 (inp : IntrinsicInput) : ℚ :=
  min (growth_rate_1_5 inp) (15/100)

/-- The years 11-20 growth rate (main.py line 322). -/
def growth_rate_11_20 (inp : IntrinsicInput) : ℚ :=
  if containsSub inp.country "China" then 6/100 else 4/100

/-- The compounding projection of the DCF family (main.py lines 399-416):
the base metric compounded forward 5 years at the years-1-5 rate, 5 more at
the years-6-10 rate and 10 more at the years-11-20 rate. -/
def future_values (base g15 g610 g1120 : ℚ) : List ℚ :=
  ((List.replicate 5 g15 ++ List.replicate 5 g610 ++
    List.replicate 10 g1120).scanl (fun v g => v * (1 + g)) base).drop 1

/-- The present-value discounting sum (main.py lines 418-422). -/
def present_value_sum (fv : List ℚ) (discount_rate : ℚ) : ℚ :=
  (fv.enum.map (fun p => p.2 / (1 + discount_rate) ^ (p.1 + 1))).sum

/-- The result-shaping tail of `calculate_intrinsic_value` (main.py lines
439-455), plus the exception path: `none` stands for a raised exception,
turned into the zero-valued Error result by the outer handler. -/
def finalizeValuation (method : String) (currentPrice : ℚ) (iv? : Option ℚ) :
    ValuationResult :=
  match iv? with
  | none => errorResult "Error"
  | some intrinsic_value =>
    let diff_percent :=
      if intrinsic_value ≠ 0 then currentPrice / intrinsic_value - 1 else 0
    let status :=
      if diff_percent > 15/100 then "Overvalued"
      else if diff_percent < -(15/100) then "Undervalued"
      else "Fairly Valued"
    ⟨method, intrinsic_value, some currentPrice, diff_percent, status⟩

/-- `calculate_intrinsic_value` (main.py lines 180-459) over the `ℚ`
embedding.  Of the outer `try/except`, the embedded fragment reaches one
failure path: in the PB method a missing `bookValue` combined with an empty
balance sheet leaves Python's `book_value = None`, and `None * mean_pb`
raises a `TypeError` that the handler turns into the zero-valued Error
result — modelled by the `none` branch of `finalizeValuation`. -/
def calculate_intrinsic_value (inp : IntrinsicInput) : ValuationResult :=
  if inp.currentPrice = 0 ∨ inp.sharesOutstanding = 0 then
    errorResult "N/A"
  else
    let method := select_method inp.sector inp.industry inp.revenue_series
      inp.net_income_series inp.op_cash_flow_series (rev_cagr inp)
    let current_ni := inp.net_income_series.getD 0 0
    let current_ocf := inp.op_cash_flow_series.getD 0 0
    let beta_val : ℚ := match inp.beta with
      | none => 1
      | some b => if b = 0 then 1 else b
    let discount_rate := get_discount_rate beta_val inp.country
    let g15 := growth_rate_1_5 inp
    let g610 := growth_rate_6_10 inp
    let g1120 := growth_rate_11_20 inp
    let total_debt := (inp.balance_sheet.lookup "Total Debt").getD 0
    let cash_and_equivalents :=
      match inp.balance_sheet.lookup "Cash And Cash Equivalents" with
      | some v => v
      | none => (inp.balance_sheet.lookup
          "Cash Cash Equivalents And Short Term Investments").getD 0
    let iv? : Option ℚ :=
      if method = "Mean Price-to-Book (PB)" then
        let bvFalsy : Bool := match inp.bookValue with
          | none => true
          | some b => decide (b = 0)
        let bv? : Option ℚ :=
          if bvFalsy ∧ inp.balance_sheet ≠ [] then
            some ((inp.balance_sheet.lookup "Stockholders Equity").getD 0 /
              inp.sharesOutstanding)
          else inp.bookValue
        let mean_pb : ℚ := match inp.priceToBook with
          | none => 3/2
          | some p => if p = 0 then 3/2 else p
        match bv? with
        | none => none
        | some bv => some (bv * mean_pb)
      else if method = "Price to Sales Growth (PSG)" then
        let sales_per_share :=
          if inp.revenue_series ≠ [] then
            inp.revenue_series.getD 0 0 / inp.sharesOutstanding
          else 0
        some (sales_per_share * (g15 * 100) * (20/100))
      else
        let base_value :=
          if containsSub method "Free Cash Flow" then
            let capex : ℚ := match inp.cashflow.lookup "Capital Expenditure" with
              | some v => |v|
              | none => match inp.cashflow.lookup "Capital Expenditures" with
                | some v => |v|
                | none => 0
            current_ocf - capex
          else if containsSub method "Operating Cash Flow" then current_ocf
          else current_ni
        let fv := future_values base_value g15 g610 g1120
        let pv := present_value_sum fv discount_rate
        some ((pv + cash_and_equivalents - total_debt) / inp.sharesOutstanding)
    finalizeValuation method inp.currentPrice iv?

/-! ## Composite scorer (`get_stock_data`, main.py lines 869-1244) -/

/-- One evaluated criterion, an entry of `score_criteria` (main.py): the
name, the "Pass"/"Fail" status string, and the display value.  Numeric
display strings (Python f-string formatting of floats) are abbreviated to
`""` since only names and statuses feed the scoring loop. -/
structure Criterion where
  name : String
  status : String
  value : String

/-- The inputs of the criteria evaluation (main.py lines 944-1154).  Series
are the newest-first rational lists on which `check_trend` runs.  The
20-year historical-trend check (lines 944-1000) reads the wall clock and
computes float CAGR/drawdown, so its outcome enters as the boolean/string it
produces; the TTM ratios (ROE, ROIC, debt/EBITDA, debt servicing, current
ratio, gearing), the CCC day values and the revenue growth fraction are
float quotients computed before this fragment and enter as their values. -/
structure ScoreInputs where
  trend_pass : Bool
  trend_val : String
  net_income_series : List ℚ
  op_income_series : List ℚ
  op_cash_flow_series : List ℚ
  revenue_series : List ℚ
  gross_margin_series : List ℚ
  net_margin_series : List ℚ
  roe_ttm : ℚ
  roic : ℚ
  accounts_receivable_series : List ℚ
  has_physical_goods : Bool
  ccc_series : List ℚ
  revenue_growth : ℚ
  debt_to_ebitda : ℚ
  debt_servicing : ℚ
  current_ratio_val : ℚ
  gearing_val : ℚ
  is_reit : Bool

/-- The receivables-versus-revenue race (main.py lines 1041-1054). -/
def rev_ar_pass (inp : ScoreInputs) : Bool :=
  if inp.accounts_receivable_series ≠ [] ∧ inp.revenue_series ≠ [] then
    let current_rev := inp.revenue_series.getD 0 0
    let current_ar := inp.accounts_receivable_series.getD 0 0
    if current_rev > current_ar then true
    else if 2 ≤ inp.accounts_receivable_series.length ∧
        2 ≤ inp.revenue_series.length then
      let rev_growth := (inp.revenue_series.getD 0 0 -
        inp.revenue_series.getLastD 0) / |inp.revenue_series.getLastD 0|
      let ar_growth := (inp.accounts_receivable_series.getD 0 0 -
        inp.accounts_receivable_series.getLastD 0) /
          |inp.accounts_receivable_series.getLastD 0|
      decide (rev_growth > ar_growth)
    else false
  else false

/-- The five-factor economic-moat proxy score (main.py lines 1103-1126). -/
def moat_score (inp : ScoreInputs) : ℚ :=
  (if inp.gross_margin_series.getD 0 0 > 40 then 1
   else if inp.gross_margin_series.getD 0 0 > 20 then 1/2 else 0) +
  (if inp.roic > 15/100 then 1 else if inp.roic > 1/10 then 1/2 else 0) +
  (if inp.revenue_series.getD 0 0 > 100 * 10 ^ 9 then 1
   else if inp.revenue_series.getD 0 0 > 10 * 10 ^ 9 then 1/2 else 0) +
  (if inp.net_margin_series.getD 0 0 > 20 then 1
   else if inp.net_margin_series.getD 0 0 > 10 then 1/2 else 0) +
  (if inp.revenue_growth > 15/100 then 1
   else if inp.revenue_growth > 5/100 then 1/2 else 0)

/-- The moat classification (main.py lines 1128-1132). -/
def moat_type (inp : ScoreInputs) : String :=
  if moat_score inp > 3 then "Wide"
  else if moat_score inp ≥ 2 then "Narrow"
  else "None"

/-- The `score_criteria` list built by `get_stock_data` (main.py lines
1000-1154), in append order.  The net-income / operating-income pair (lines
1002-1014) appends exactly one of the two names; the CCC criterion appears
only for inventory-carrying companies with computed CCC values (lines
1057-1091); the gearing criterion only for REITs (lines 1150-1154). -/
def score_criteria (inp : ScoreInputs) : List Criterion :=
  let ni_pass := check_trend inp.net_income_series "increasing" (5/100)
  let oi_pass := check_trend inp.op_income_series "increasing" (5/100)
  let ocf_pass := check_trend inp.op_cash_flow_series "increasing" (5/100)
  let rev_pass := check_trend inp.revenue_series "increasing" (5/100)
  let gm_pass := check_trend inp.gross_margin_series "stable_increasing" (1/10)
  let nm_pass := check_trend inp.net_margin_series "stable_increasing" (1/10)
  let moat_pass := moat_type inp = "Wide" ∨ moat_type inp = "Narrow"
  [⟨"Historical Trend (20Y)", if inp.trend_pass then "Pass" else "Fail", inp.trend_val⟩] ++
  (if ni_pass then [⟨"Net Income Increasing", "Pass", "Pass"⟩]
   else if oi_pass then [⟨"Operating Income Increasing", "Pass", "Pass"⟩]
   else [⟨"Net Income Increasing", "Fail", "Fail"⟩]) ++
  [⟨"Operating Cash Flow Increasing", if ocf_pass then "Pass" else "Fail",
    if ocf_pass then "Pass" else "Fail"⟩] ++
  [⟨"Revenue Increasing", if rev_pass then "Pass" else "Fail",
    if rev_pass then "Pass" else "Fail"⟩] ++
  [⟨"Gross Margin Stable/Increasing", if gm_pass then "Pass" else "Fail",
    if gm_pass then "Pass" else "Fail"⟩] ++
  [⟨"Net Margin Stable/Increasing", if nm_pass then "Pass" else "Fail",
    if nm_pass then "Pass" else "Fail"⟩] ++
  [⟨"ROE > 12-15%", if inp.roe_ttm ≥ 12/100 then "Pass" else "Fail", ""⟩] ++
  [⟨"ROIC > 12-15%", if inp.roic ≥ 12/100 then "Pass" else "Fail", ""⟩] ++
  [⟨"Revenue > AR or Growing Faster", if rev_ar_pass inp then "Pass" else "Fail",
    if rev_ar_pass inp then "Pass" else "Fail"⟩] ++
  (if inp.has_physical_goods ∧ inp.ccc_series ≠ [] then
    [⟨"CCC Stable/Reducing",
      if check_trend inp.ccc_series "reducing_stable" (1/10) then "Pass" else "Fail", ""⟩]
   else []) ++
  [⟨"Economic Moat", if moat_pass then "Pass" else "Fail", ""⟩] ++
  [⟨"Debt/EBITDA < 3", if inp.debt_to_ebitda < 3 then "Pass" else "Fail", ""⟩] ++
  [⟨"Debt Servicing Ratio < 30%", if inp.debt_servicing < 30 then "Pass" else "Fail", ""⟩] ++
  [⟨"Current Ratio > 1.5", if inp.current_ratio_val > 3/2 then "Pass" else "Fail", ""⟩] ++
  (if inp.is_reit then
    [⟨"Gearing Ratio < 45%", if inp.gearing_val < 45 then "Pass" else "Fail", ""⟩]
   else [])

/-- Weight table for inventory-carrying (CCC-applicable) companies (main.py
lines 1162-1177). -/
def weights_ccc : List (String × ℚ) :=
  [("Historical Trend (20Y)", 15),
   ("Net Income Increasing", 5), ("Operating Income Increasing", 5),
   ("Operating Cash Flow Increasing", 5),
   ("Revenue Increasing", 10),
   ("Gross Margin Stable/Increasing", 10),
   ("Net Margin Stable/Increasing", 5),
   ("ROE > 12-15%", 5),
   ("ROIC > 12-15%", 15),
   ("Revenue > AR or Growing Faster", 1),
   ("CCC Stable/Reducing", 3),
   ("Economic Moat", 20),
   ("Debt/EBITDA < 3", 5),
   ("Debt Servicing Ratio < 30%", 1),
   ("Current Ratio > 1.5", 5)]

/-- Weight table for REITs (main.py lines 1180-1195). -/
def weights_reit : List (String × ℚ) :=
  [("Historical Trend (20Y)", 10),
   ("Net Income Increasing", 3), ("Operating Income Increasing", 3),
   ("Operating Cash Flow Increasing", 3),
   ("Revenue Increasing", 3),
   ("Gross Margin Stable/Increasing", 5),
   ("Net Margin Stable/Increasing", 5),
   ("ROE > 12-15%", 10),
   ("ROIC > 12-15%", 15),
   ("Revenue > AR or Growing Faster", 4),
   ("Economic Moat", 5),
   ("Debt/EBITDA < 3", 15),
   ("Debt Servicing Ratio < 30%", 15),
   ("Current Ratio > 1.5", 5),
   ("Gearing Ratio < 45%", 5)]

/-- The standard weight table (main.py lines 1198-1212). -/
def weights_standard : List (String × ℚ) :=
  [("Historical Trend (20Y)", 5),
   ("Net Income Increasing", 10), ("Operating Income Increasing", 10),
   ("Operating Cash Flow Increasing", 10),
   ("Revenue Increasing", 5),
   ("Gross Margin Stable/Increasing", 10),
   ("Net Margin Stable/Increasing", 5),
   ("ROE > 12-15%", 15),
   ("ROIC > 12-15%", 15),
   ("Revenue > AR or Growing Faster", 5),
   ("Economic Moat", 20),
   ("Debt/EBITDA < 3", 5),
   ("Debt Servicing Ratio < 30%", 2),
   ("Current Ratio > 1.5", 3)]

/-- The weight-table selection (main.py lines 1215-1221). -/
def current_weights (is_reit has_physical_goods : Bool) : List (String × ℚ) :=
  if is_reit then weights_reit
  else if has_physical_goods then weights_ccc
  else weights_standard

/-- The name normalization of the scoring loop (main.py lines 1231-1235):
three sequential substring tests each overwrite the lookup key. -/
def lookup_name (name : String) : String :=
  let l1 := if containsSub name "Historical Trend" then "Historical Trend (20Y)" else name
  let l2 := if containsSub name "Net Income Increasing" then "Net Income Increasing" else l1
  if containsSub name "Operating Income Increasing" then "Operating Income Increasing" else l2

/-- One weight lookup of the scoring loop (main.py line 1237):
`current_weights.get(lookup_name, 0)`. -/
def lookupWeight (w : List (String × ℚ)) (name : String) : ℚ :=
  (w.lookup (lookup_name name)).getD 0

/-- The scoring loop (main.py lines 1223-1244), returning
`(total_score, max_score)`: every evaluated criterion adds its looked-up
weight to the max, and additionally to the total when it passed. -/
def computeScore (w : List (String × ℚ)) (criteria : List Criterion) : ℚ × ℚ :=
  criteria.foldl
    (fun acc c =>
      (acc.1 + (if c.status = "Pass" then lookupWeight w c.name else 0),
       acc.2 + lookupWeight w c.name))
    (0, 0)

/-! ## Theorems about the trend classifier -/

theorem consistentIncrease_eq_false (tol : ℚ) :
    ∀ (l : List ℚ) (i : ℕ), i + 1 < l.length →
      l.getD (i + 1) 0 < l.getD i 0 * (1 - tol) → consistentIncrease tol l = false
  | a :: b :: rest, 0, _, hlt => by
      simp only [List.getD_cons_succ, List.getD_cons_zero] at hlt
      simp [consistentIncrease, hlt]
  | a :: b :: rest, (k + 1), hi, hlt => by
      have ih := consistentIncrease_eq_false tol (b :: rest) k
        (by simpa [Nat.succ_lt_succ_iff] using hi)
        (by simpa [List.getD_cons_succ] using hlt)
      simp [consistentIncrease, ih]

theorem slopeNum_nonpos_of_decreasing (l : List ℚ) (h : l.Pairwise (· > ·)) :
    slopeNum l ≤ 0 := by
  have hfg : AntivaryOn (fun i : ℕ => (i : ℚ)) (fun i => l.getD i 0)
      ↑(Finset.range l.length) := by
    intro i hi j hj hlt
    simp only [Finset.coe_range, Set.mem_Iio] at hi hj
    have hlt' : l.getD i 0 < l.getD j 0 := hlt
    by_contra hij
    push_neg at hij
    have hji : i < j := by exact_mod_cast hij
    have := List.pairwise_iff_getElem.mp h i j hi hj hji
    have hgi : l.getD i 0 = l[i] := by
      simp [List.getD_eq_getElem?_getD, List.getElem?_eq_getElem, hi]
    have hgj : l.getD j 0 = l[j] := by
      simp [List.getD_eq_getElem?_getD, List.getElem?_eq_getElem, hj]
    rw [hgi, hgj] at hlt'
    exact absurd hlt' (not_lt.mpr (le_of_lt this))
  have cheb := hfg.card_mul_sum_le_sum_mul_sum
  simp only [Finset.card_range] at cheb
  unfold slopeNum
  nlinarith [cheb]

theorem getD_lt_getD_last_of_chain_lt (l : List ℚ) (h2 : 2 ≤ l.length)
    (h : l.Chain' (· < ·)) : l.getD 0 0 < l.getD (l.length - 1) 0 := by
  have hp : l.Pairwise (· < ·) := List.chain'_iff_pairwise.mp h
  have h0 : 0 < l.length := by omega
  have h1 : l.length - 1 < l.length := by omega
  have := List.pairwise_iff_getElem.mp hp 0 (l.length - 1) h0 h1 (by omega)
  simpa [List.getD_eq_getElem?_getD, List.getElem?_eq_getElem, h0, h1] using this

theorem getD_last_lt_getD_of_chain_gt (l : List ℚ) (h2 : 2 ≤ l.length)
    (h : l.Chain' (· > ·)) : l.getD (l.length - 1) 0 < l.getD 0 0 := by
  have hp : l.Pairwise (· > ·) := List.chain'_iff_pairwise.mp h
  have h0 : 0 < l.length := by omega
  have h1 : l.length - 1 < l.length := by omega
  have := List.pairwise_iff_getElem.mp hp 0 (l.length - 1) h0 h1 (by omega)
  simpa [List.getD_eq_getElem?_getD, List.getElem?_eq_getElem, h0, h1] using this

/-- Claim C1 (amended): with kind "increasing" and the default tolerance 0.05,
`check_trend` returns `true` for every strictly monotonically increasing
chronological series of at least 2 points; for a strictly monotonically
decreasing series of at least 2 points it returns `false` provided some
chronological step falls below `(1 - 0.05)` times the previous value (without
such a step the tolerance test of the code passes and the verdict is `true`,
refuting the unamended claim). -/
theorem check_trend_increasing_c1 (l : List ℚ) (h2 : 2 ≤ l.length) :
    (l.Chain' (· < ·) → check_trend l "increasing" (1/20) = true) ∧
    (l.Chain' (· > ·) →
      (∃ i, i + 1 < l.length ∧ l.getD (i + 1) 0 < l.getD i 0 * (1 - 1/20)) →
      check_trend l "increasing" (1/20) = false) := by
  constructor
  · intro hchain
    have hlt := getD_lt_getD_last_of_chain_lt l h2 hchain
    simp only [check_trend]
    rw [if_neg (by omega : ¬ l.length < 2), if_true, if_pos hlt]
  · intro hchain hstep
    have hgt := getD_last_lt_getD_of_chain_gt l h2 hchain
    have hslope := slopeNum_nonpos_of_decreasing l (List.chain'_iff_pairwise.mp hchain)
    obtain ⟨i, hi, hlt⟩ := hstep
    have hcons := consistentIncrease_eq_false (1/20) l i hi hlt
    simp only [check_trend]
    rw [if_neg (by omega : ¬ l.length < 2), if_true,
      if_neg (not_lt.mpr (le_of_lt hgt)), if_neg (not_lt.mpr hslope)]
    exact hcons

theorem check_trend_increasing_c1_witness :
    2 ≤ ([(1 : ℚ), 2]).length ∧ check_trend [(1 : ℚ), 2] "increasing" (1/20) = true :=
  ⟨by simp, (check_trend_increasing_c1 [(1 : ℚ), 2] (by simp)).1 (by simp)⟩

/-- Claim C1 counterexample: the chronological series `[100, 99]` is strictly
monotonically decreasing with 2 points, yet `check_trend` with kind
"increasing" and the default tolerance 0.05 returns `true`: the endpoint test
and the slope test fail, but the step-wise tolerance test passes because
`99 ≥ 100 * (1 - 0.05)`. -/
theorem check_trend_increasing_c1_counterexample :
    List.Chain' (· > ·) [(100 : ℚ), 99] ∧
    check_trend [(100 : ℚ), 99] "increasing" (1/20) = true := by
  constructor
  · simp
    norm_num
  · simp [check_trend, slopeNum, consistentIncrease, Finset.sum_range_succ]
    norm_num

/-- Claim C8: for every input series with fewer than 2 points (after dropping
missing values), `check_trend` returns `false` for each of the three trend
kinds "increasing", "stable_increasing" and "reducing_stable" (indeed the
length guard fires for every trend kind and tolerance). -/
theorem check_trend_short_series_false (series : List ℚ) (tolerance : ℚ)
    (h : series.length < 2) :
    check_trend series "increasing" tolerance = false ∧
    check_trend series "stable_increasing" tolerance = false ∧
    check_trend series "reducing_stable" tolerance = false := by
  unfold check_trend
  rw [if_pos h, if_pos h, if_pos h]
  exact ⟨rfl, rfl, rfl⟩

theorem check_trend_short_series_false_witness :
    check_trend [(3 : ℚ)] "increasing" (1/20) = false ∧
    check_trend [(3 : ℚ)] "stable_increasing" (1/20) = false ∧
    check_trend [(3 : ℚ)] "reducing_stable" (1/20) = false :=
  check_trend_short_series_false [(3 : ℚ)] (1/20) (by simp)

/-! ## Theorems about the swing-low detector -/

theorem mem_get_swing_lows (low : List ℚ) (w : ℕ) (v : ℚ)
    (hv : v ∈ get_swing_lows low w) :
    ∃ i, w ≤ i ∧ i + w < low.length ∧ low.getD i 0 = v := by
  unfold get_swing_lows at hv
  simp only [List.mem_filterMap] at hv
  obtain ⟨i, hi, hcond⟩ := hv
  rw [List.mem_range'_1] at hi
  split_ifs at hcond with hc
  · exact ⟨i, hi.1, by omega, by injection hcond⟩

/-- Claim C10: `get_swing_lows` with window `w` only examines bars at interior
indices `w .. len - w - 1`: every price series with fewer than `2w + 1` bars
yields the empty list, and the low of a bar among the first `w` or the last
`w` bars is never reported when it is the strict global minimum of the
series. -/
theorem get_swing_lows_interior (low : List ℚ) (w : ℕ) :
    (low.length < 2 * w + 1 → get_swing_lows low w = []) ∧
    (∀ e, e < low.length → (e < w ∨ low.length - w ≤ e) →
      (∀ i, i < low.length → i ≠ e → low.getD e 0 < low.getD i 0) →
      low.getD e 0 ∉ get_swing_lows low w) := by
  constructor
  · intro hshort
    unfold get_swing_lows
    have h0 : low.length - 2 * w = 0 := by omega
    rw [h0]
    rfl
  · intro e he hedge hmin hmem
    obtain ⟨i, hwi, hiw, heq⟩ := mem_get_swing_lows low w _ hmem
    by_cases hie : i = e
    · subst hie
      omega
    · exact absurd heq (ne_of_gt (hmin i (by omega) hie))

theorem get_swing_lows_interior_witness :
    get_swing_lows [(1 : ℚ), 2, 3] 3 = [] :=
  (get_swing_lows_interior [(1 : ℚ), 2, 3] 3).1 (by simp)

/-! ## Theorems about the discount-rate lookup -/

theorem usTable_lb (b : ℚ) :
    54/1000 ≤ usTable b ∧
    (85/100 ≤ b → 57/1000 ≤ usTable b) ∧
    (95/100 ≤ b → 60/1000 ≤ usTable b) ∧
    (105/100 ≤ b → 63/1000 ≤ usTable b) ∧
    (115/100 ≤ b → 66/1000 ≤ usTable b) ∧
    (125/100 ≤ b → 69/1000 ≤ usTable b) ∧
    (135/100 ≤ b → 72/1000 ≤ usTable b) ∧
    (145/100 ≤ b → 75/1000 ≤ usTable b) ∧
    (155/100 ≤ b → 78/1000 ≤ usTable b) := by
  unfold usTable
  rcases lt_or_le b (8/10) with h1 | h1
  · rw [if_pos h1]
    refine ⟨?_, ?_, ?_, ?_, ?_, ?_, ?_, ?_, ?_⟩ <;> intros <;> linarith
  · rw [if_neg (not_lt.mpr h1)]
    rcases le_or_lt (16/10) b with h2 | h2
    · rw [if_pos h2]
      refine ⟨?_, ?_, ?_, ?_, ?_, ?_, ?_, ?_, ?_⟩ <;> intros <;> linarith
    · rw [if_neg (not_le.mpr h2)]
      rcases lt_or_le b (85/100) with h3 | h3
      · rw [if_pos h3]
        refine ⟨?_, ?_, ?_, ?_, ?_, ?_, ?_, ?_, ?_⟩ <;> intros <;> linarith
      · rw [if_neg (not_lt.mpr h3)]
        rcases lt_or_le b (95/100) with h4 | h4
        · rw [if_pos h4]
          refine ⟨?_, ?_, ?_, ?_, ?_, ?_, ?_, ?_, ?_⟩ <;> intros <;> linarith
        · rw [if_neg (not_lt.mpr h4)]
          rcases lt_or_le b (105/100) with h5 | h5
          · rw [if_pos h5]
            refine ⟨?_, ?_, ?_, ?_, ?_, ?_, ?_, ?_, ?_⟩ <;> intros <;> linarith
          · rw [if_neg (not_lt.mpr h5)]
            rcases lt_or_le b (115/100) with h6 | h6
            · rw [if_pos h6]
              refine ⟨?_, ?_, ?_, ?_, ?_, ?_, ?_, ?_, ?_⟩ <;> intros <;> linarith
            · rw [if_neg (not_lt.mpr h6)]
              rcases lt_or_le b (125/100) with h7 | h7
              · rw [if_pos h7]
                refine ⟨?_, ?_, ?_, ?_, ?_, ?_, ?_, ?_, ?_⟩ <;> intros <;> linarith
              · rw [if_neg (not_lt.mpr h7)]
                rcases lt_or_le b (135/100) with h8 | h8
                · rw [if_pos h8]
                  refine ⟨?_, ?_, ?_, ?_, ?_, ?_, ?_, ?_, ?_⟩ <;> intros <;> linarith
                · rw [if_neg (not_lt.mpr h8)]
                  rcases lt_or_le b (145/100) with h9 | h9
                  · rw [if_pos h9]
                    refine ⟨?_, ?_, ?_, ?_, ?_, ?_, ?_, ?_, ?_⟩ <;> intros <;> linarith
                  · rw [if_neg (not_lt.mpr h9)]
                    rcases lt_or_le b (155/100) with h10 | h10
                    · rw [if_pos h10]
                      refine ⟨?_, ?_, ?_, ?_, ?_, ?_, ?_, ?_, ?_⟩ <;> intros <;> linarith
                    · rw [if_neg (not_lt.mpr h10)]
                      refine ⟨?_, ?_, ?_, ?_, ?_, ?_, ?_, ?_, ?_⟩ <;> intros <;> linarith

theorem usTable_mono {b1 b2 : ℚ} (hle : b1 ≤ b2) : usTable b1 ≤ usTable b2 := by
  have lb := usTable_lb b2
  unfold usTable at lb ⊢
  rcases lt_or_le b1 (8/10) with h1 | h1
  · rw [if_pos h1]; exact lb.1
  · rw [if_neg (not_lt.mpr h1)]
    rcases le_or_lt (16/10) b1 with h2 | h2
    · rw [if_pos h2]; exact lb.2.2.2.2.2.2.2.2 (by linarith)
    · rw [if_neg (not_le.mpr h2)]
      rcases lt_or_le b1 (85/100) with h3 | h3
      · rw [if_pos h3]; exact lb.1
      · rw [if_neg (not_lt.mpr h3)]
        rcases lt_or_le b1 (95/100) with h4 | h4
        · rw [if_pos h4]; exact lb.2.1 (by linarith)
        · rw [if_neg (not_lt.mpr h4)]
          rcases lt_or_le b1 (105/100) with h5 | h5
          · rw [if_pos h5]; exact lb.2.2.1 (by linarith)
          · rw [if_neg (not_lt.mpr h5)]
            rcases lt_or_le b1 (115/100) with h6 | h6
            · rw [if_pos h6]; exact lb.2.2.2.1 (by linarith)
            · rw [if_neg (not_lt.mpr h6)]
              rcases lt_or_le b1 (125/100) with h7 | h7
              · rw [if_pos h7]; exact lb.2.2.2.2.1 (by linarith)
              · rw [if_neg (not_lt.mpr h7)]
                rcases lt_or_le b1 (135/100) with h8 | h8
                · rw [if_pos h8]; exact lb.2.2.2.2.2.1 (by linarith)
                · rw [if_neg (not_lt.mpr h8)]
                  rcases lt_or_le b1 (145/100) with h9 | h9
                  · rw [if_pos h9]; exact lb.2.2.2.2.2.2.1 (by linarith)
                  · rw [if_neg (not_lt.mpr h9)]
                    rcases lt_or_le b1 (155/100) with h10 | h10
                    · rw [if_pos h10]; exact lb.2.2.2.2.2.2.2.1 (by linarith)
                    · rw [if_neg (not_lt.mpr h10)]
                      exact lb.2.2.2.2.2.2.2.2 (by linarith)

theorem usTable_ub (b : ℚ) : usTable b ≤ 78/1000 := by
  unfold usTable
  rcases lt_or_le b (8/10) with h1 | h1
  · rw [if_pos h1]; norm_num
  · rw [if_neg (not_lt.mpr h1)]
    rcases le_or_lt (16/10) b with h2 | h2
    · rw [if_pos h2]
    · rw [if_neg (not_le.mpr h2)]
      rcases lt_or_le b (85/100) with h3 | h3
      · rw [if_pos h3]; norm_num
      · rw [if_neg (not_lt.mpr h3)]
        rcases lt_or_le b (95/100) with h4 | h4
        · rw [if_pos h4]; norm_num
        · rw [if_neg (not_lt.mpr h4)]
          rcases lt_or_le b (105/100) with h5 | h5
          · rw [if_pos h5]; norm_num
          · rw [if_neg (not_lt.mpr h5)]
            rcases lt_or_le b (115/100) with h6 | h6
            · rw [if_pos h6]; norm_num
            · rw [if_neg (not_lt.mpr h6)]
              rcases lt_or_le b (125/100) with h7 | h7
              · rw [if_pos h7]; norm_num
              · rw [if_neg (not_lt.mpr h7)]
                rcases lt_or_le b (135/100) with h8 | h8
                · rw [if_pos h8]; norm_num
                · rw [if_neg (not_lt.mpr h8)]
                  rcases lt_or_le b (145/100) with h9 | h9
                  · rw [if_pos h9]; norm_num
                  · rw [if_neg (not_lt.mpr h9)]
                    rcases lt_or_le b (155/100) with h10 | h10
                    · rw [if_pos h10]; norm_num
                    · rw [if_neg (not_lt.mpr h10)]

theorem usTable_top {b : ℚ} (hb : 16/10 ≤ b) : usTable b = 78/1000 := by
  unfold usTable
  rw [if_neg (by linarith : ¬ b < 8/10), if_pos hb]

theorem chinaTable_lb (b : ℚ) :
    85/1000 ≤ chinaTable b ∧
    (85/100 ≤ b → 93/1000 ≤ chinaTable b) ∧
    (95/100 ≤ b → 100/1000 ≤ chinaTable b) ∧
    (105/100 ≤ b → 108/1000 ≤ chinaTable b) ∧
    (115/100 ≤ b → 115/1000 ≤ chinaTable b) ∧
    (125/100 ≤ b → 122/1000 ≤ chinaTable b) ∧
    (135/100 ≤ b → 130/1000 ≤ chinaTable b) ∧
    (145/100 ≤ b → 137/1000 ≤ chinaTable b) ∧
    (16/10 ≤ b → 145/1000 ≤ chinaTable b) := by
  unfold chinaTable
  rcases lt_or_le b (8/10) with h1 | h1
  · rw [if_pos h1]
    refine ⟨?_, ?_, ?_, ?_, ?_, ?_, ?_, ?_, ?_⟩ <;> intros <;> linarith
  · rw [if_neg (not_lt.mpr h1)]
    rcases le_or_lt (16/10) b with h2 | h2
    · rw [if_pos h2]
      refine ⟨?_, ?_, ?_, ?_, ?_, ?_, ?_, ?_, ?_⟩ <;> intros <;> linarith
    · rw [if_neg (not_le.mpr h2)]
      rcases lt_or_le b (85/100) with h3 | h3
      · rw [if_pos h3]
        refine ⟨?_, ?_, ?_, ?_, ?_, ?_, ?_, ?_, ?_⟩ <;> intros <;> linarith
      · rw [if_neg (not_lt.mpr h3)]
        rcases lt_or_le b (95/100) with h4 | h4
        · rw [if_pos h4]
          refine ⟨?_, ?_, ?_, ?_, ?_, ?_, ?_, ?_, ?_⟩ <;> intros <;> linarith
        · rw [if_neg (not_lt.mpr h4)]
          rcases lt_or_le b (105/100) with h5 | h5
          · rw [if_pos h5]
            refine ⟨?_, ?_, ?_, ?_, ?_, ?_, ?_, ?_, ?_⟩ <;> intros <;> linarith
          · rw [if_neg (not_lt.mpr h5)]
            rcases lt_or_le b (115/100) with h6 | h6
            · rw [if_pos h6]
              refine ⟨?_, ?_, ?_, ?_, ?_, ?_, ?_, ?_, ?_⟩ <;> intros <;> linarith
            · rw [if_neg (not_lt.mpr h6)]
              rcases lt_or_le b (125/100) with h7 | h7
              · rw [if_pos h7]
                refine ⟨?_, ?_, ?_, ?_, ?_, ?_, ?_, ?_, ?_⟩ <;> intros <;> linarith
              · rw [if_neg (not_lt.mpr h7)]
                rcases lt_or_le b (135/100) with h8 | h8
                · rw [if_pos h8]
                  refine ⟨?_, ?_, ?_, ?_, ?_, ?_, ?_, ?_, ?_⟩ <;> intros <;> linarith
                · rw [if_neg (not_lt.mpr h8)]
                  rcases lt_or_le b (145/100) with h9 | h9
                  · rw [if_pos h9]
                    refine ⟨?_, ?_, ?_, ?_, ?_, ?_, ?_, ?_, ?_⟩ <;> intros <;> linarith
                  · rw [if_neg (not_lt.mpr h9)]
                    refine ⟨?_, ?_, ?_, ?_, ?_, ?_, ?_, ?_, ?_⟩ <;> intros <;> linarith

theorem chinaTable_mono {b1 b2 : ℚ} (hle : b1 ≤ b2) : chinaTable b1 ≤ chinaTable b2 := by
  have lb := chinaTable_lb b2
  unfold chinaTable at lb ⊢
  rcases lt_or_le b1 (8/10) with h1 | h1
  · rw [if_pos h1]; exact lb.1
  · rw [if_neg (not_lt.mpr h1)]
    rcases le_or_lt (16/10) b1 with h2 | h2
    · rw [if_pos h2]; exact lb.2.2.2.2.2.2.2.2 (by linarith)
    · rw [if_neg (not_le.mpr h2)]
      rcases lt_or_le b1 (85/100) with h3 | h3
      · rw [if_pos h3]; exact lb.1
      · rw [if_neg (not_lt.mpr h3)]
        rcases lt_or_le b1 (95/100) with h4 | h4
        · rw [if_pos h4]; exact lb.2.1 (by linarith)
        · rw [if_neg (not_lt.mpr h4)]
          rcases lt_or_le b1 (105/100) with h5 | h5
          · rw [if_pos h5]; exact lb.2.2.1 (by linarith)
          · rw [if_neg (not_lt.mpr h5)]
            rcases lt_or_le b1 (115/100) with h6 | h6
            · rw [if_pos h6]; exact lb.2.2.2.1 (by linarith)
            · rw [if_neg (not_lt.mpr h6)]
              rcases lt_or_le b1 (125/100) with h7 | h7
              · rw [if_pos h7]; exact lb.2.2.2.2.1 (by linarith)
              · rw [if_neg (not_lt.mpr h7)]
                rcases lt_or_le b1 (135/100) with h8 | h8
                · rw [if_pos h8]; exact lb.2.2.2.2.2.1 (by linarith)
                · rw [if_neg (not_lt.mpr h8)]
                  rcases lt_or_le b1 (145/100) with h9 | h9
                  · rw [if_pos h9]; exact lb.2.2.2.2.2.2.1 (by linarith)
                  · rw [if_neg (not_lt.mpr h9)]
                    exact lb.2.2.2.2.2.2.2.1 (by linarith)

theorem chinaTable_ub (b : ℚ) : chinaTable b ≤ 145/1000 := by
  unfold chinaTable
  rcases lt_or_le b (8/10) with h1 | h1
  · rw [if_pos h1]; norm_num
  · rw [if_neg (not_lt.mpr h1)]
    rcases le_or_lt (16/10) b with h2 | h2
    · rw [if_pos h2]
    · rw [if_neg (not_le.mpr h2)]
      rcases lt_or_le b (85/100) with h3 | h3
      · rw [if_pos h3]; norm_num
      · rw [if_neg (not_lt.mpr h3)]
        rcases lt_or_le b (95/100) with h4 | h4
        · rw [if_pos h4]; norm_num
        · rw [if_neg (not_lt.mpr h4)]
          rcases lt_or_le b (105/100) with h5 | h5
          · rw [if_pos h5]; norm_num
          · rw [if_neg (not_lt.mpr h5)]
            rcases lt_or_le b (115/100) with h6 | h6
            · rw [if_pos h6]; norm_num
            · rw [if_neg (not_lt.mpr h6)]
              rcases lt_or_le b (125/100) with h7 | h7
              · rw [if_pos h7]; norm_num
              · rw [if_neg (not_lt.mpr h7)]
                rcases lt_or_le b (135/100) with h8 | h8
                · rw [if_pos h8]; norm_num
                · rw [if_neg (not_lt.mpr h8)]
                  rcases lt_or_le b (145/100) with h9 | h9
                  · rw [if_pos h9]; norm_num
                  · rw [if_neg (not_lt.mpr h9)]
                    norm_num

theorem chinaTable_top {b : ℚ} (hb : 16/10 ≤ b) : chinaTable b = 145/1000 := by
  unfold chinaTable
  rw [if_neg (by linarith : ¬ b < 8/10), if_pos hb]

/-- Claim C5 (amended): `get_discount_rate` is monotonically non-decreasing in
beta over nonzero betas for every country (a beta of exactly 0 is coerced by
the Python falsy test to the default 1.0, which breaks monotonicity at 0 and
refutes the unamended claim), and every beta ≥ 1.6 receives the top bucket
rate of the respective table: the same rate as beta 1.6, which bounds the
whole table from above. -/
theorem get_discount_rate_c5 (country : String) :
    (∀ b1 b2 : ℚ, b1 ≤ b2 → b1 ≠ 0 → b2 ≠ 0 →
      get_discount_rate b1 country ≤ get_discount_rate b2 country) ∧
    (∀ b : ℚ, 16/10 ≤ b →
      get_discount_rate b country = get_discount_rate (16/10) country) ∧
    (∀ b : ℚ, get_discount_rate b country ≤ get_discount_rate (16/10) country) := by
  have h16 : ¬ ((16:ℚ)/10) = 0 := by norm_num
  refine ⟨?_, ?_, ?_⟩
  · intro b1 b2 hle h1 h2
    simp only [get_discount_rate]
    rw [if_neg h1, if_neg h2]
    by_cases hc : containsSub country "China" = true
    · rw [if_pos hc, if_pos hc]
      exact chinaTable_mono hle
    · rw [if_neg hc, if_neg hc]
      exact usTable_mono hle
  · intro b hb
    have hb0 : ¬ b = 0 := by intro h; rw [h] at hb; norm_num at hb
    simp only [get_discount_rate]
    rw [if_neg hb0, if_neg h16]
    by_cases hc : containsSub country "China" = true
    · rw [if_pos hc, if_pos hc, chinaTable_top hb, chinaTable_top (by norm_num)]
    · rw [if_neg hc, if_neg hc, usTable_top hb, usTable_top (by norm_num)]
  · intro b
    simp only [get_discount_rate]
    rw [if_neg h16]
    by_cases hc : containsSub country "China" = true
    · rw [if_pos hc, if_pos hc, chinaTable_top (by norm_num : (16:ℚ)/10 ≤ 16/10)]
      by_cases hb : b = 0
      · rw [if_pos hb]; exact chinaTable_ub 1
      · rw [if_neg hb]; exact chinaTable_ub b
    · rw [if_neg hc, if_neg hc, usTable_top (by norm_num : (16:ℚ)/10 ≤ 16/10)]
      by_cases hb : b = 0
      · rw [if_pos hb]; exact usTable_ub 1
      · rw [if_neg hb]; exact usTable_ub b

theorem get_discount_rate_c5_witness :
    get_discount_rate (1/2) "United States" ≤ get_discount_rate 1 "United States" ∧
    get_discount_rate 2 "United States" = get_discount_rate (16/10) "United States" :=
  ⟨(get_discount_rate_c5 "United States").1 (1/2) 1 (by norm_num) (by norm_num) (by norm_num),
   (get_discount_rate_c5 "United States").2.1 2 (by norm_num)⟩

/-- Claim C5 counterexample: with the non-China table, betas 0 ≤ 1/2 violate
monotonicity: Python's falsy test maps beta 0 to the default bucket of
beta 1.0 (rate 6.0%) while beta 0.5 gets the bottom bucket (5.4%). -/
theorem get_discount_rate_c5_counterexample :
    (0 : ℚ) ≤ 1/2 ∧
    ¬ get_discount_rate 0 "United States" ≤ get_discount_rate (1/2) "United States" := by
  have hus : containsSub "United States" "China" = false := by decide
  constructor
  · norm_num
  · simp only [get_discount_rate, hus, Bool.false_eq_true, if_false]
    rw [if_true, if_neg (by norm_num : ¬ ((1:ℚ)/2) = 0)]
    unfold usTable
    rw [if_neg (by norm_num : ¬ (1:ℚ) < 8/10), if_neg (by norm_num : ¬ (1:ℚ) ≥ 16/10),
      if_neg (by norm_num : ¬ (1:ℚ) < 85/100), if_neg (by norm_num : ¬ (1:ℚ) < 95/100),
      if_pos (by norm_num : (1:ℚ) < 105/100), if_pos (by norm_num : (1:ℚ)/2 < 8/10)]
    norm_num

/-! ## Theorems about the intrinsic-value estimator -/

theorem finalizeValuation_status (method : String) (p : ℚ) (o : Option ℚ) :
    ((finalizeValuation method p o).status = "Undervalued" ∨
     (finalizeValuation method p o).status = "Fairly Valued" ∨
     (finalizeValuation method p o).status = "Overvalued" ∨
     (finalizeValuation method p o).status = "Error") ∧
    ((finalizeValuation method p o).status = "Error" →
      (finalizeValuation method p o).intrinsicValue = 0) := by
  rcases o with _ | iv
  · exact ⟨Or.inr (Or.inr (Or.inr rfl)), fun _ => rfl⟩
  · simp only [finalizeValuation]
    by_cases h1 : (if iv ≠ 0 then p / iv - 1 else 0) > 15/100
    · rw [if_pos h1]
      exact ⟨Or.inr (Or.inr (Or.inl rfl)), fun h => absurd h (by decide)⟩
    · rw [if_neg h1]
      by_cases h2 : (if iv ≠ 0 then p / iv - 1 else 0) < -(15/100)
      · rw [if_pos h2]
        exact ⟨Or.inl rfl, fun h => absurd h (by decide)⟩
      · rw [if_neg h2]
        exact ⟨Or.inr (Or.inl rfl), fun h => absurd h (by decide)⟩

/-- Claim C2 (amended): `calculate_intrinsic_value` returns the zero-valued
Error result (status "Error" via method "N/A") whenever the current price or
the shares outstanding is zero — Python's falsy test, which does not catch
negative values, refuting "non-positive" — and for every input it returns a
well-typed result whose status is one of the four enum values, with a zero
intrinsic value whenever the status is "Error". -/
theorem calculate_intrinsic_value_c2 (inp : IntrinsicInput) :
    ((inp.currentPrice = 0 ∨ inp.sharesOutstanding = 0) →
      calculate_intrinsic_value inp = errorResult "N/A") ∧
    ((calculate_intrinsic_value inp).status = "Undervalued" ∨
     (calculate_intrinsic_value inp).status = "Fairly Valued" ∨
     (calculate_intrinsic_value inp).status = "Overvalued" ∨
     (calculate_intrinsic_value inp).status = "Error") ∧
    ((calculate_intrinsic_value inp).status = "Error" →
      (calculate_intrinsic_value inp).intrinsicValue = 0) := by
  by_cases hg : inp.currentPrice = 0 ∨ inp.sharesOutstanding = 0
  · refine ⟨fun _ => ?_, ?_⟩
    · simp only [calculate_intrinsic_value]
      rw [if_pos hg]
    · simp only [calculate_intrinsic_value]
      rw [if_pos hg]
      exact ⟨Or.inr (Or.inr (Or.inr rfl)), fun _ => rfl⟩
  · refine ⟨fun h => absurd h hg, ?_⟩
    simp only [calculate_intrinsic_value]
    rw [if_neg hg]
    exact finalizeValuation_status _ _ _

theorem calculate_intrinsic_value_c2_witness :
    calculate_intrinsic_value
      ⟨0, 1, "", "", "United States", none, none, none,
        [], [], [], [], [], [], 0, 0⟩ = errorResult "N/A" :=
  (calculate_intrinsic_value_c2 _).1 (Or.inl rfl)

/-- Claim C2 counterexample: a negative current price is Python-truthy, so
the falsy guard does not fire: with current price -10, a financial company
with book value 2 and price-to-book 3 yields a fully computed "Undervalued"
result instead of the Error result the claim requires for every non-positive
price. -/
theorem calculate_intrinsic_value_c2_counterexample :
    IntrinsicInput.currentPrice
        ⟨-10, 1000, "Financial Services", "", "United States",
          some 2, some 3, none, [], [], [], [], [], [], 0, 0⟩ < 0 ∧
    (calculate_intrinsic_value
        ⟨-10, 1000, "Financial Services", "", "United States",
          some 2, some 3, none, [], [], [], [], [], [], 0, 0⟩).status =
      "Undervalued" := by
  constructor
  · norm_num
  · have hfin : containsSub "Financial Services" "Financial" = true := by decide
    have hm : select_method "Financial Services" "" [] [] [] 0 =
        "Mean Price-to-Book (PB)" := by
      simp [select_method, hfin]
    simp only [calculate_intrinsic_value, rev_cagr, finalizeValuation]
    norm_num [hm, errorResult]

/-- Claim C3: intrinsic-value method selection is the pure function
`select_method` of (sector, industry, the three series — from which the
consistency flags and the current net-income / operating-cash-flow signs are
derived — and the computed revenue CAGR), so identical inputs always select
the same method; a financial company (sector containing "Financial" or
industry containing "Bank" or "Insurance") always selects Mean
Price-to-Book, and a non-financial company with revenue CAGR > 15% and a
negative current net income or operating cash flow selects Price to Sales
Growth. -/
theorem select_method_c3 (sector industry : String)
    (revenue net_income op_cash_flow : List ℚ) (cagr : ℚ) :
    ((containsSub sector "Financial" || containsSub industry "Bank" ||
        containsSub industry "Insurance") = true →
      select_method sector industry revenue net_income op_cash_flow cagr =
        "Mean Price-to-Book (PB)") ∧
    ((containsSub sector "Financial" || containsSub industry "Bank" ||
        containsSub industry "Insurance") = false →
      15/100 < cagr →
      (net_income.getD 0 0 < 0 ∨ op_cash_flow.getD 0 0 < 0) →
      select_method sector industry revenue net_income op_cash_flow cagr =
        "Price to Sales Growth (PSG)") := by
  constructor
  · intro hfin
    simp [select_method, hfin]
  · intro hfin hcagr hneg
    have h1 : decide (cagr > 15/100) = true := decide_eq_true hcagr
    have h2 : (decide (net_income.getD 0 0 < 0) ||
        decide (op_cash_flow.getD 0 0 < 0)) = true := by
      rcases hneg with h | h
      · rw [decide_eq_true h]; rfl
      · rw [decide_eq_true h, Bool.or_true]
    simp only [select_method, hfin, h1, h2, Bool.not_false, Bool.and_true,
      Bool.true_and, Bool.and_self, Bool.false_eq_true, if_false, if_true]

theorem select_method_c3_witness :
    select_method "Financial Services" "" [] [] [] 0 =
      "Mean Price-to-Book (PB)" ∧
    select_method "Technology" "Software" [] [-5] [] (20/100) =
      "Price to Sales Growth (PSG)" :=
  ⟨(select_method_c3 "Financial Services" "" [] [] [] 0).1 (by decide),
   (select_method_c3 "Technology" "Software" [] [-5] [] (20/100)).2
     (by decide) (by norm_num)
     (Or.inl (show List.getD [(-5 : ℚ)] 0 0 < 0 by norm_num [List.getD]))⟩

/-- Claim C7: for every input, the years-1-5 growth rate used for projection
lies in [-10%, 30%] (the clamp at main.py line 316), the years-6-10 rate is
the minimum of the years-1-5 rate and 15%, and the years-11-20 rate is 6%
when the country contains "China" and 4% otherwise. -/
theorem growth_rates_c7 (inp : IntrinsicInput) :
    -(10/100) ≤ growth_rate_1_5 inp ∧ growth_rate_1_5 inp ≤ 30/100 ∧
    growth_rate_6_10 inp = min (growth_rate_1_5 inp) (15/100) ∧
    growth_rate_11_20 inp =
      (if containsSub inp.country "China" then 6/100 else 4/100) := by
  refine ⟨?_, ?_, rfl, rfl⟩
  · simp only [growth_rate_1_5]
    exact le_min (le_max_right _ _) (by norm_num)
  · simp only [growth_rate_1_5]
    exact min_le_right _ _

/-! ## Theorems about the support-level merge -/

theorem mergeRun_spec :
    ∀ (l : List SupportCandidate) (cur : SupportCandidate),
      0 < cur.price → (∀ c ∈ l, 0 < c.price) → (∀ c ∈ l, c.price ≤ cur.price) →
      l.Pairwise (fun a b => b.price ≤ a.price) →
      (mergeRun cur l).Pairwise
          (fun a b => 0 < b.price ∧ b.price < 197/200 * a.price) ∧
        ∀ c ∈ mergeRun cur l, 0 < c.price ∧ c.price ≤ cur.price
  | [], cur, hcur, _, _, _ => by
      refine ⟨by simp [mergeRun], ?_⟩
      intro c hc
      simp only [mergeRun, List.mem_singleton] at hc
      subst hc
      exact ⟨hcur, le_refl _⟩
  | n :: rest, cur, hcur, hpos, hle, hpw => by
      have hn : n.price ≤ cur.price := hle n (List.mem_cons_self n rest)
      have hnpos : 0 < n.price := hpos n (List.mem_cons_self n rest)
      have hrestpos : ∀ c ∈ rest, 0 < c.price :=
        fun c hc => hpos c (List.mem_cons_of_mem _ hc)
      have hrestle_cur : ∀ c ∈ rest, c.price ≤ cur.price :=
        fun c hc => hle c (List.mem_cons_of_mem _ hc)
      have hrestle_n : ∀ c ∈ rest, c.price ≤ n.price :=
        fun c hc => (List.pairwise_cons.mp hpw).1 c hc
      have hpwrest : rest.Pairwise (fun a b => b.price ≤ a.price) :=
        (List.pairwise_cons.mp hpw).2
      by_cases hmerge : |cur.price - n.price| / cur.price ≤ 15/1000
      · have hcursp : 0 < (if n.score > cur.score then n else cur).price ∧
            (if n.score > cur.score then n else cur).price ≤ cur.price ∧
            ∀ c ∈ rest, c.price ≤ (if n.score > cur.score then n else cur).price := by
          by_cases hs : n.score > cur.score
          · rw [if_pos hs]; exact ⟨hnpos, hn, hrestle_n⟩
          · rw [if_neg hs]; exact ⟨hcur, le_refl _, hrestle_cur⟩
        have ih := mergeRun_spec rest (if n.score > cur.score then n else cur)
          hcursp.1 hrestpos hcursp.2.2 hpwrest
        simp only [mergeRun]
        rw [if_pos hmerge]
        refine ⟨ih.1, ?_⟩
        intro c hc
        exact ⟨(ih.2 c hc).1, le_trans (ih.2 c hc).2 hcursp.2.1⟩
      · have hgap : n.price < 197/200 * cur.price := by
          have habs : |cur.price - n.price| = cur.price - n.price :=
            abs_of_nonneg (by linarith)
          rw [habs] at hmerge
          have := (lt_div_iff₀ hcur).mp (lt_of_not_le hmerge)
          linarith
        have ih := mergeRun_spec rest n hnpos hrestpos hrestle_n hpwrest
        simp only [mergeRun]
        rw [if_neg hmerge]
        constructor
        · refine List.pairwise_cons.mpr ⟨?_, ih.1⟩
          intro c hc
          exact ⟨(ih.2 c hc).1, lt_of_le_of_lt (ih.2 c hc).2 hgap⟩
        · intro c hc
          rcases List.mem_cons.mp hc with h | h
          · subst h; exact ⟨hcur, le_refl _⟩
          · exact ⟨(ih.2 c h).1, le_trans (ih.2 c h).2 hn⟩

theorem sortDesc_pairwise (cands : List SupportCandidate) :
    (cands.mergeSort (fun a b => decide (b.price ≤ a.price))).Pairwise
      (fun a b => b.price ≤ a.price) := by
  have h := @List.sorted_mergeSort SupportCandidate
    (fun a b => decide (b.price ≤ a.price))
    (fun a b c hab hbc => by
      simp only [decide_eq_true_eq] at hab hbc ⊢
      exact le_trans hbc hab)
    (fun a b => by
      simp only [Bool.or_eq_true, decide_eq_true_eq]
      exact le_total b.price a.price)
    cands
  exact h.imp fun hab => of_decide_eq_true hab

/-- Claim C4: for every list of support candidates (each with positive
price, as all candidate prices are SMA values or cluster averages of traded
prices), the merged support-level list has length at most 5 and contains no
two levels whose prices are within 1.5% of each other, relative to the
higher price. -/
theorem get_validated_support_levels_merge_c4 (cands : List SupportCandidate)
    (hpos : ∀ c ∈ cands, 0 < c.price) :
    (get_validated_support_levels_merge cands).length ≤ 5 ∧
    (get_validated_support_levels_merge cands).Pairwise
      (fun a b => 15/1000 * max a.price b.price < |a.price - b.price|) := by
  have hsorted := sortDesc_pairwise cands
  have hposs : ∀ c ∈ cands.mergeSort (fun a b => decide (b.price ≤ a.price)),
      0 < c.price := fun c hc => hpos c (List.mem_mergeSort.mp hc)
  constructor
  · exact List.length_take_le 5 _
  · unfold get_validated_support_levels_merge
    rcases hms : cands.mergeSort (fun a b => decide (b.price ≤ a.price))
      with _ | ⟨c, rest⟩
    · simp
    · rw [hms] at hsorted hposs
      have hp := mergeRun_spec rest c (hposs c (List.mem_cons_self c rest))
        (fun d hd => hposs d (List.mem_cons_of_mem _ hd))
        (fun d hd => (List.pairwise_cons.mp hsorted).1 d hd)
        (List.pairwise_cons.mp hsorted).2
      have htake := List.Pairwise.sublist (List.take_sublist 5 _) hp.1
      refine htake.imp ?_
      intro a b hab
      obtain ⟨hbpos, hblt⟩ := hab
      have hapos : 0 < a.price := by linarith
      have hba : b.price < a.price := by linarith
      rw [max_eq_left (le_of_lt hba), abs_of_pos (sub_pos.mpr hba)]
      linarith

theorem get_validated_support_levels_merge_c4_witness :
    (get_validated_support_levels_merge
        [⟨100, "Weekly", "r1", 6⟩, ⟨50, "Daily", "r2", 3⟩]).length ≤ 5 ∧
    (get_validated_support_levels_merge
        [⟨100, "Weekly", "r1", 6⟩, ⟨50, "Daily", "r2", 3⟩]).Pairwise
      (fun a b => 15/1000 * max a.price b.price < |a.price - b.price|) :=
  get_validated_support_levels_merge_c4 _ (by
    intro c hc
    simp only [List.mem_cons, List.not_mem_nil, or_false] at hc
    rcases hc with h | h
    · subst h; exact (by norm_num : (0:ℚ) < 100)
    · subst h; exact (by norm_num : (0:ℚ) < 50))

/-! ## Theorems about the composite scorer -/

theorem lookup_getD_nonneg : ∀ (l : List (String × ℚ)), (∀ p ∈ l, 0 ≤ p.2) →
    ∀ (k : String), 0 ≤ (l.lookup k).getD 0
  | [], _, k => by simp [List.lookup]
  | (k', v') :: rest, h, k => by
      simp only [List.lookup]
      cases hkk : k == k'
      · exact lookup_getD_nonneg rest (fun p hp => h p (List.mem_cons_of_mem _ hp)) k
      · simpa using h (k', v') (List.mem_cons_self _ _)

theorem lookupWeight_nonneg (w : List (String × ℚ)) (hw : ∀ p ∈ w, 0 ≤ p.2)
    (name : String) : 0 ≤ lookupWeight w name :=
  lookup_getD_nonneg w hw (lookup_name name)

theorem computeScore_go (w : List (String × ℚ)) (hw : ∀ p ∈ w, 0 ≤ p.2) :
    ∀ (criteria : List Criterion) (acc : ℚ × ℚ), acc.1 ≤ acc.2 →
      (criteria.foldl
        (fun acc c =>
          (acc.1 + (if c.status = "Pass" then lookupWeight w c.name else 0),
           acc.2 + lookupWeight w c.name)) acc).1 ≤
       (criteria.foldl
        (fun acc c =>
          (acc.1 + (if c.status = "Pass" then lookupWeight w c.name else 0),
           acc.2 + lookupWeight w c.name)) acc).2 ∧
      (criteria.foldl
        (fun acc c =>
          (acc.1 + (if c.status = "Pass" then lookupWeight w c.name else 0),
           acc.2 + lookupWeight w c.name)) acc).2 =
        acc.2 + (criteria.map (fun c => lookupWeight w c.name)).sum
  | [], acc, hacc => by simp [hacc]
  | c :: rest, acc, hacc => by
      have hnn := lookupWeight_nonneg w hw c.name
      have hstep : acc.1 + (if c.status = "Pass" then lookupWeight w c.name else 0) ≤
          acc.2 + lookupWeight w c.name := by
        by_cases h : c.status = "Pass"
        · rw [if_pos h]; linarith
        · rw [if_neg h]; linarith
      have ih := computeScore_go w hw rest
        (acc.1 + (if c.status = "Pass" then lookupWeight w c.name else 0),
         acc.2 + lookupWeight w c.name) hstep
      simp only [List.foldl_cons, List.map_cons, List.sum_cons]
      refine ⟨ih.1, ?_⟩
      rw [ih.2]
      ring

theorem current_weights_nonneg (is_reit has_physical_goods : Bool) :
    ∀ p ∈ current_weights is_reit has_physical_goods, 0 ≤ p.2 := by
  intro p hp
  cases is_reit <;> cases has_physical_goods <;>
    simp only [current_weights, Bool.false_eq_true, if_false, if_true,
      weights_reit, weights_ccc, weights_standard] at hp <;>
    · fin_cases hp <;> norm_num

/-- Claim C6: for every archetype (the REIT, physical-goods and standard
weight tables, selected by the two booleans as in the code) and every
pass/fail outcome of an arbitrary evaluated criteria list, the composite
total score is at most the composite max score, and the max score equals the
sum of the selected table's looked-up weights over exactly the criteria in
the evaluated list. -/
theorem computeScore_c6 (is_reit has_physical_goods : Bool)
    (criteria : List Criterion) :
    (computeScore (current_weights is_reit has_physical_goods) criteria).1 ≤
      (computeScore (current_weights is_reit has_physical_goods) criteria).2 ∧
    (computeScore (current_weights is_reit has_physical_goods) criteria).2 =
      (criteria.map
        (fun c => lookupWeight (current_weights is_reit has_physical_goods) c.name)).sum := by
  have h := computeScore_go (current_weights is_reit has_physical_goods)
    (current_weights_nonneg is_reit has_physical_goods) criteria (0, 0) (le_refl 0)
  unfold computeScore
  refine ⟨h.1, ?_⟩
  rw [h.2]
  ring

/-- Claim C9: in every scorer evaluation, the criteria list contains exactly
one of the criteria named "Net Income Increasing" and "Operating Income
Increasing" (never both), and "Operating Income Increasing" appears if and
only if the net-income trend check fails and the operating-income trend
check passes. -/
theorem score_criteria_c9 (inp : ScoreInputs) :
    ((score_criteria inp).countP (fun c => decide (c.name = "Net Income Increasing")) +
     (score_criteria inp).countP (fun c => decide (c.name = "Operating Income Increasing")) = 1) ∧
    ((score_criteria inp).countP (fun c => decide (c.name = "Operating Income Increasing")) = 1 ↔
      (check_trend inp.net_income_series "increasing" (5/100) = false ∧
       check_trend inp.op_income_series "increasing" (5/100) = true)) := by
  by_cases hni : check_trend inp.net_income_series "increasing" (5/100) = true
  · constructor
    · simp [score_criteria, hni, List.countP_append, List.countP_cons,
        apply_ite (List.countP fun c : Criterion => decide (c.name = "Net Income Increasing")),
        apply_ite (List.countP fun c : Criterion => decide (c.name = "Operating Income Increasing"))]
    · simp [score_criteria, hni, List.countP_append, List.countP_cons,
        apply_ite (List.countP fun c : Criterion => decide (c.name = "Net Income Increasing")),
        apply_ite (List.countP fun c : Criterion => decide (c.name = "Operating Income Increasing"))]
  · have hni' : check_trend inp.net_income_series "increasing" (5/100) = false := by
      simpa using hni
    by_cases hoi : check_trend inp.op_income_series "increasing" (5/100) = true
    · constructor
      · simp [score_criteria, hni', hoi, List.countP_append, List.countP_cons,
          apply_ite (List.countP fun c : Criterion => decide (c.name = "Net Income Increasing")),
          apply_ite (List.countP fun c : Criterion => decide (c.name = "Operating Income Increasing"))]
      · simp [score_criteria, hni', hoi, List.countP_append, List.countP_cons,
          apply_ite (List.countP fun c : Criterion => decide (c.name = "Net Income Increasing")),
          apply_ite (List.countP fun c : Criterion => decide (c.name = "Operating Income Increasing"))]
    · have hoi' : check_trend inp.op_income_series "increasing" (5/100) = false := by
        simpa using hoi
      constructor
      · simp [score_criteria, hni', hoi', List.countP_append, List.countP_cons,
          apply_ite (List.countP fun c : Criterion => decide (c.name = "Net Income Increasing")),
          apply_ite (List.countP fun c : Criterion => decide (c.name = "Operating Income Increasing"))]
      · simp [score_criteria, hni', hoi', List.countP_append, List.countP_cons,
          apply_ite (List.countP fun c : Criterion => decide (c.name = "Net Income Increasing")),
          apply_ite (List.countP fun c : Criterion => decide (c.name = "Operating Income Increasing"))]

end StockAnalyser
